import Mathlib

/-!
Shallow embedding of the S&P 500 / Nasdaq-100 technical scanner
(`SP500_NASDAQ100_SCAN.py`).

Prices are modelled as rationals (`ℚ`); a pandas `NaN` entry of a derived
column is modelled as `none : Option ℚ`.  A pandas `DataFrame` is modelled
as a `Frame`: a list of row dates, an optional `Close` column (absent for a
malformed series, in which case indexing it raises `KeyError` in Python and
the surrounding `try`/`except` blocks take over), and the four derived
columns, absent (`none`) until `calc_indicators` creates them.
-/

namespace Scanner

/-- A pandas DataFrame as the scanner uses it: row dates, the `Close`
column (`none` when the column is entirely absent, i.e. a malformed
series), and the four derived columns created by `calc_indicators`
(`none` while the column does not exist; a cell of an existing derived
column is itself `Option ℚ`, `none` standing for `NaN`). -/
structure Frame where
  dates : List String
  close : Option (List ℚ)
  smaShort : Option (List (Option ℚ)) := none
  smaLong : Option (List (Option ℚ)) := none
  rollingHigh : Option (List (Option ℚ)) := none
  aroc : Option (List (Option ℚ)) := none
deriving DecidableEq

/-- The trailing window of the last `w` values ending at index `i`
(inclusive), as pandas `rolling(window=w)` sees it at row `i`. -/
def windowSlice (w i : Nat) (xs : List ℚ) : List ℚ :=
  (xs.take (i + 1)).drop (i + 1 - w)

/-- Maximum of a list of rationals, `none` on the empty list
(pandas reduction over a window). -/
def listMax : List ℚ → Option ℚ
  | [] => none
  | x :: xs =>
    match listMax xs with
    | none => some x
    | some m => some (max x m)

/-- `series.rolling(window=w).mean()`: at row `i` the mean of the last `w`
values when at least `w` rows exist up to `i`, `NaN` (`none`) before. -/
def rollingMean (w : Nat) (xs : List ℚ) : List (Option ℚ) :=
  (List.range xs.length).map (fun i =>
    if w ≤ i + 1 then some ((windowSlice w i xs).sum / (w : ℚ)) else none)

/-- `series.rolling(window=w).max()`: at row `i` the maximum of the last
`w` values when at least `w` rows exist up to `i`, `NaN` before. -/
def rollingMax (w : Nat) (xs : List ℚ) : List (Option ℚ) :=
  (List.range xs.length).map (fun i =>
    if w ≤ i + 1 then listMax (windowSlice w i xs) else none)

/-- `((close - close.shift(w)) / close.shift(w)) * 100`: the AROC column.
`close.shift(w)` at row `i` is `close[i-w]` when `w ≤ i` and `NaN`
otherwise; any arithmetic on `NaN` stays `NaN`. -/
def arocCol (w : Nat) (xs : List ℚ) : List (Option ℚ) :=
  (List.range xs.length).map (fun i =>
    match (if w ≤ i then xs[i - w]? else none), xs[i]? with
    | some p, some c => some ((c - p) / p * 100)
    | _, _ => none)

/-- `calc_indicators(df, sma_short, sma_long, aroc_weeks)`.  When the
`Close` column is present it attaches the four derived columns; when it is
absent, `df["Close"]` raises `KeyError` on the first line, the `except`
branch catches it and the frame is returned unchanged. -/
def calc_indicators (df : Frame) (sma_short sma_long aroc_weeks : Nat) : Frame :=
  match df.close with
  | none => df
  | some closes =>
    { df with
      smaShort := some (rollingMean sma_short closes)
      smaLong := some (rollingMean sma_long closes)
      rollingHigh := some (rollingMax (aroc_weeks * 5) closes)
      aroc := some (arocCol (aroc_weeks * 5) closes) }

/-- The values the signal evaluation reads off `df.iloc[-1]`: each field is
`none` when the column is absent or its last cell is `NaN`. -/
structure LatestBar where
  close : Option ℚ
  smaShort : Option ℚ
  smaLong : Option ℚ
  rollingHigh : Option ℚ
  aroc : Option ℚ
deriving DecidableEq

/-- Python `a > b` on possibly-`NaN` floats: `False` whenever either side
is `NaN`, the numeric comparison otherwise. -/
def optGT (a b : Option ℚ) : Bool :=
  match a, b with
  | some x, some y => decide (y < x)
  | _, _ => false

/-- Python `a >= 0.95 * b` on possibly-`NaN` floats: `False` whenever
either side is `NaN`. -/
def optGE95 (a b : Option ℚ) : Bool :=
  match a, b with
  | some x, some y => decide (95 / 100 * y ≤ x)
  | _, _ => false

/-- The composite entry condition of `analyze_ticker`:
`Close > SMA_short and SMA_short > SMA_long and Close >= 0.95 * 20w_high
and AROC > 5`, with every `NaN` comparison evaluating to `False`. -/
def entrySignal (l : LatestBar) : Bool :=
  optGT l.close l.smaShort &&
  optGT l.smaShort l.smaLong &&
  optGE95 l.close l.rollingHigh &&
  optGT l.aroc (some 5)

/-- The record `analyze_ticker` returns for a matching ticker. -/
structure ScanResult where
  ticker : String
  date : String
  close : ℚ
  smaShort : ℚ
  smaLong : ℚ
  rollingHigh : ℚ
  aroc : ℚ
  entry : ℚ
  sell : ℚ
deriving DecidableEq

/-- The signal-evaluation half of `analyze_ticker`: if the composite
condition holds on the latest bar, build the result record with
`entry_price = Close`, `sma_exit = SMA_short`,
`trailing_stop_exit = entry_price * 0.93` and
`sell_recommendation = max(sma_exit, trailing_stop_exit)`; otherwise
return nothing.  (When `entrySignal` is `true` every read field is
defined, so the inner fallback branch is unreachable.) -/
def evaluate (ticker date : String) (l : LatestBar) : Option ScanResult :=
  if entrySignal l then
    match l.close, l.smaShort, l.smaLong, l.rollingHigh, l.aroc with
    | some c, some s, some sl, some rh, some ar =>
      some ⟨ticker, date, c, s, sl, rh, ar, c, max s (c * (93 / 100))⟩
    | _, _, _, _, _ => none
  else none

/-- `df.iloc[-1]` restricted to the five columns the evaluator reads. -/
def lastRow (df : Frame) : LatestBar :=
  ⟨df.close.bind (fun xs => xs[df.dates.length - 1]?),
   (df.smaShort.bind (fun xs => xs[df.dates.length - 1]?)).join,
   (df.smaLong.bind (fun xs => xs[df.dates.length - 1]?)).join,
   (df.rollingHigh.bind (fun xs => xs[df.dates.length - 1]?)).join,
   (df.aroc.bind (fun xs => xs[df.dates.length - 1]?)).join⟩

/-- `analyze_ticker(ticker, sma_short, sma_long, aroc_weeks)` after the
fetch: `fetched` is the outcome of `fetch_data` (`none` for a failed
fetch).  A failed fetch or an empty frame yields no result; otherwise the
indicators are computed and the latest row is evaluated. -/
def analyze_ticker (ticker : String) (fetched : Option Frame)
    (sma_short sma_long aroc_weeks : Nat) : Option ScanResult :=
  match fetched with
  | none => none
  | some df0 =>
    if df0.dates.isEmpty then none
    else
      evaluate ticker
        ((calc_indicators df0 sma_short sma_long aroc_weeks).dates.getLastD "")
        (lastRow (calc_indicators df0 sma_short sma_long aroc_weeks))

/-- The scan loop of `main`: for each ticker in order, fetch with a
lookback of `aroc_weeks + 10` weeks, analyze, and append the result record
when one is produced.  `fetch` abstracts `fetch_data`. -/
def run_scan (fetch : String → Nat → Option Frame) (tickers : List String)
    (sma_short sma_long aroc_weeks : Nat) : List ScanResult :=
  tickers.foldl (fun acc t =>
    match analyze_ticker t (fetch t (aroc_weeks + 10)) sma_short sma_long aroc_weeks with
    | some r => acc ++ [r]
    | none => acc) []

/-- `get_all_tickers`: `list(set(sp500 + nasdaq100))` then `.sort()` —
the deduplicated union of the two source lists, sorted. -/
def get_all_tickers (sp500 nasdaq100 : List String) : List String :=
  List.mergeSort ((sp500 ++ nasdaq100).dedup) (fun a b => a ≤ b)

/-- The gate of `main`: build the universe, halt (`st.stop()`, modelled as
`none`) when it is empty, otherwise scan the selected tickers (all of them
when the selection is empty) and return the collected results. -/
def main_scan (sp500 nasdaq100 : List String) (fetch : String → Nat → Option Frame)
    (selected : List String) (sma_short sma_long aroc_weeks : Nat) :
    Option (List ScanResult) :=
  if (get_all_tickers sp500 nasdaq100).isEmpty then none
  else
    some (run_scan fetch
      (if selected.isEmpty then get_all_tickers sp500 nasdaq100 else selected)
      sma_short sma_long aroc_weeks)

/-! Helper lemmas about the evaluator -/

lemma entrySignal_false_of_undef (l : LatestBar)
    (h : l.smaShort = none ∨ l.smaLong = none ∨ l.rollingHigh = none ∨ l.aroc = none) :
    entrySignal l = false := by
  obtain ⟨c, s, sl, rh, ar⟩ := l
  cases c <;> cases s <;> cases sl <;> cases rh <;> cases ar <;>
    simp_all [entrySignal, optGT, optGE95]

lemma evaluate_some_fields (t d : String) (l : LatestBar) (r : ScanResult)
    (h : evaluate t d l = some r) :
    l.close = some r.close ∧ l.smaShort = some r.smaShort ∧
    r.entry = r.close ∧ r.smaShort < r.close ∧
    r.sell = max r.smaShort (93 / 100 * r.close) := by
  obtain ⟨c, s, sl, rh, ar⟩ := l
  by_cases hsig : entrySignal ⟨c, s, sl, rh, ar⟩
  · cases c <;> cases s <;> cases sl <;> cases rh <;> cases ar <;>
      simp_all [evaluate, entrySignal, optGT, optGE95, mul_comm]
    obtain ⟨hsig2, rfl⟩ := h
    exact ⟨rfl, rfl, rfl, hsig2.1.1.1, rfl⟩
  · simp [evaluate, hsig] at h

/-! Claims about the Signal Evaluator -/

/-- Claim C1: on a latest bar with Close and all four derived inputs
defined, the evaluator returns a result exactly when `Close > sma_short`,
`sma_short > sma_long`, `Close ≥ 0.95 * rolling_high` and `aroc > 5` all
hold; and whenever any of the four derived inputs is undefined the
composite condition is false and the evaluator returns nothing. -/
theorem C1_evaluator_iff (t d : String) (l : LatestBar) :
    (∀ c s sl rh ar, l = ⟨some c, some s, some sl, some rh, some ar⟩ →
      ((evaluate t d l).isSome ↔ (s < c ∧ sl < s ∧ 95 / 100 * rh ≤ c ∧ 5 < ar))) ∧
    ((l.smaShort = none ∨ l.smaLong = none ∨ l.rollingHigh = none ∨ l.aroc = none) →
      entrySignal l = false ∧ evaluate t d l = none) := by
  constructor
  · rintro c s sl rh ar rfl
    by_cases h1 : s < c <;> by_cases h2 : sl < s <;>
      by_cases h3 : 95 / 100 * rh ≤ c <;> by_cases h4 : (5 : ℚ) < ar <;>
        simp [evaluate, entrySignal, optGT, optGE95, h1, h2, h3, h4]
  · intro h
    have hsig := entrySignal_false_of_undef l h
    exact ⟨hsig, by simp [evaluate, hsig]⟩

/-- Concrete instance of `C1_evaluator_iff`: a fully defined firing bar and
a bar with an undefined `sma_short`. -/
theorem C1_evaluator_iff_witness :
    ((evaluate "T" "D" ⟨some 100, some 90, some 80, some 100, some 10⟩).isSome ↔
      ((90 : ℚ) < 100 ∧ (80 : ℚ) < 90 ∧ 95 / 100 * 100 ≤ (100 : ℚ) ∧ (5 : ℚ) < 10)) ∧
    evaluate "T" "D" ⟨some 100, none, some 80, some 100, some 10⟩ = none :=
  ⟨(C1_evaluator_iff "T" "D" _).1 100 90 80 100 10 rfl,
   ((C1_evaluator_iff "T" "D" _).2 (Or.inl rfl)).2⟩

/-- Claim C2: a returned result has entry price equal to the latest bar's
Close and sell recommendation `max(sma_short, 0.93 * Close)`. -/
theorem C2_sell_recommendation (t d : String) (l : LatestBar) (r : ScanResult)
    (h : evaluate t d l = some r) :
    l.close = some r.close ∧ l.smaShort = some r.smaShort ∧
    r.entry = r.close ∧ r.sell = max r.smaShort (93 / 100 * r.close) := by
  obtain ⟨h1, h2, h3, -, h5⟩ := evaluate_some_fields t d l r h
  exact ⟨h1, h2, h3, h5⟩

/-- The latest bar with `Close = 100` and `sma_short = 90` of claim C2. -/
def barLow : LatestBar := ⟨some 100, some 90, some 80, some 100, some 10⟩

/-- The result the scanner produces on `barLow`: sell recommendation 93. -/
def resLow : ScanResult := ⟨"T", "D", 100, 90, 80, 100, 10, 100, 93⟩

/-- The latest bar with `Close = 100` and `sma_short = 96` of claim C2. -/
def barHigh : LatestBar := ⟨some 100, some 96, some 80, some 100, some 10⟩

/-- The result the scanner produces on `barHigh`: sell recommendation 96. -/
def resHigh : ScanResult := ⟨"T", "D", 100, 96, 80, 100, 10, 100, 96⟩

/-- Concrete instance of `C2_sell_recommendation`: for `Close = 100`,
`sma_short = 90` the sell recommendation is 93, and for `Close = 100`,
`sma_short = 96` it is 96. -/
theorem C2_sell_recommendation_witness :
    (evaluate "T" "D" barLow = some resLow ∧ evaluate "T" "D" barHigh = some resHigh ∧
      resLow.sell = 93 ∧ resHigh.sell = 96) ∧
    (barLow.close = some resLow.close ∧ barLow.smaShort = some resLow.smaShort ∧
      resLow.entry = resLow.close ∧ resLow.sell = max resLow.smaShort (93 / 100 * resLow.close)) ∧
    (barHigh.close = some resHigh.close ∧ barHigh.smaShort = some resHigh.smaShort ∧
      resHigh.entry = resHigh.close ∧ resHigh.sell = max resHigh.smaShort (93 / 100 * resHigh.close)) :=
  ⟨⟨by norm_num [evaluate, entrySignal, optGT, optGE95, barLow, resLow],
    by norm_num [evaluate, entrySignal, optGT, optGE95, barHigh, resHigh],
    rfl, rfl⟩,
   C2_sell_recommendation "T" "D" barLow resLow
     (by norm_num [evaluate, entrySignal, optGT, optGE95, barLow, resLow]),
   C2_sell_recommendation "T" "D" barHigh resHigh
     (by norm_num [evaluate, entrySignal, optGT, optGE95, barHigh, resHigh])⟩

/-! Claims about the Indicator Engine's interface -/

/-- Claim C7: the Indicator Engine is pure from the caller's perspective —
the frame it returns carries the input's dates and Close series unchanged
(the derived columns are the only addition). -/
theorem C7_engine_pure (df : Frame) (s l a : Nat) :
    (calc_indicators df s l a).dates = df.dates ∧
    (calc_indicators df s l a).close = df.close := by
  cases h : df.close <;> simp [calc_indicators, h]

/-- Claim C8: on a malformed series (Close column absent) the engine
returns the frame unchanged, with every derived column still undefined,
and the per-ticker analysis then declines a signal instead of raising. -/
theorem C8_malformed_no_raise (dates : List String) (s l a : Nat) (t : String) :
    (∀ df : Frame, df.close = none → calc_indicators df s l a = df) ∧
    (dates ≠ [] →
      analyze_ticker t (some ⟨dates, none, none, none, none, none⟩) s l a = none) := by
  constructor
  · intro df h
    simp [calc_indicators, h]
  · intro h
    cases dates with
    | nil => exact absurd rfl h
    | cons d ds =>
      simp [analyze_ticker, calc_indicators, lastRow, evaluate, entrySignal, optGT, optGE95]

/-- Concrete instance of `C8_malformed_no_raise`: a one-row frame whose
Close column is absent produces no result and no error. -/
theorem C8_malformed_no_raise_witness :
    calc_indicators ⟨["d0"], none, none, none, none, none⟩ 2 3 1 =
      ⟨["d0"], none, none, none, none, none⟩ ∧
    analyze_ticker "T" (some ⟨["d0"], none, none, none, none, none⟩) 2 3 1 = none :=
  ⟨(C8_malformed_no_raise ["d0"] 2 3 1 "T").1 _ rfl,
   (C8_malformed_no_raise ["d0"] 2 3 1 "T").2 (by simp)⟩

/-! Claim about the sell-recommendation bounds -/

/-- Claim C10: whenever the per-ticker analysis returns a result whose
Close is positive, the sell recommendation lies in
`[0.93 * Close, Close)`. -/
theorem C10_sell_bounds (t : String) (fetched : Option Frame) (s l a : Nat)
    (r : ScanResult) (h : analyze_ticker t fetched s l a = some r)
    (hc : 0 < r.close) :
    93 / 100 * r.close ≤ r.sell ∧ r.sell < r.close := by
  cases fetched with
  | none => simp [analyze_ticker] at h
  | some df0 =>
    by_cases he : df0.dates.isEmpty
    · simp [analyze_ticker, he] at h
    · simp only [analyze_ticker, he, Bool.false_eq_true, if_false] at h
      obtain ⟨-, -, -, h4, h5⟩ := evaluate_some_fields _ _ _ _ h
      refine ⟨h5 ▸ le_max_right _ _, h5 ▸ max_lt h4 (by linarith)⟩

/-- An eight-bar strictly rising series on which the composite signal
fires for `sma_short = 2`, `sma_long = 3`, `aroc_weeks = 1`. -/
def sampleFrame : Frame :=
  ⟨["d0", "d1", "d2", "d3", "d4", "d5", "d6", "d7"],
   some [1, 2, 3, 4, 5, 6, 7, 8], none, none, none, none⟩

/-- The result the scanner produces on `sampleFrame`. -/
def sampleResult : ScanResult := ⟨"AAA", "d7", 8, 15 / 2, 7, 8, 500 / 3, 8, 15 / 2⟩

/-- Concrete instance of `C10_sell_bounds` on `sampleFrame`. -/
theorem C10_sell_bounds_witness :
    analyze_ticker "AAA" (some sampleFrame) 2 3 1 = some sampleResult ∧
    (0 : ℚ) < sampleResult.close ∧
    (93 / 100 * sampleResult.close ≤ sampleResult.sell ∧
      sampleResult.sell < sampleResult.close) :=
  ⟨by norm_num [analyze_ticker, sampleFrame, sampleResult, calc_indicators, lastRow, evaluate,
      entrySignal, optGT, optGE95, rollingMean, rollingMax, arocCol, windowSlice, listMax,
      List.range_succ],
   by norm_num [sampleResult],
   C10_sell_bounds "AAA" (some sampleFrame) 2 3 1 sampleResult
     (by norm_num [analyze_ticker, sampleFrame, sampleResult, calc_indicators, lastRow, evaluate,
        entrySignal, optGT, optGE95, rollingMean, rollingMax, arocCol, windowSlice, listMax,
        List.range_succ])
     (by norm_num [sampleResult])⟩

/-! Claims about the Scan Orchestrator and the Ticker Universe -/

lemma foldl_match_filterMap (f : String → Option ScanResult) :
    ∀ (ts : List String) (acc : List ScanResult),
      ts.foldl (fun acc t =>
        match f t with
        | some r => acc ++ [r]
        | none => acc) acc = acc ++ ts.filterMap f := by
  intro ts
  induction ts with
  | nil => intro acc; simp
  | cons t ts ih =>
    intro acc
    cases h : f t <;> simp [h, ih, List.filterMap_cons]

/-- Claim C6: the scan loop is the in-order traversal of the input
tickers, each fetched with a lookback of `aroc_weeks + 10` weeks; the
result list collects exactly the matching tickers' results in input order,
and a ticker whose fetch fails or whose series is empty contributes
nothing while the rest of the run proceeds. -/
theorem C6_scan_loop (fetch : String → Nat → Option Frame) (tickers : List String)
    (s l a : Nat) :
    run_scan fetch tickers s l a =
      tickers.filterMap (fun t => analyze_ticker t (fetch t (a + 10)) s l a) ∧
    (∀ t, fetch t (a + 10) = none → analyze_ticker t (fetch t (a + 10)) s l a = none) ∧
    (∀ t df, fetch t (a + 10) = some df → df.dates = [] →
      analyze_ticker t (fetch t (a + 10)) s l a = none) := by
  refine ⟨?_, ?_, ?_⟩
  · simpa [run_scan] using
      foldl_match_filterMap (fun t => analyze_ticker t (fetch t (a + 10)) s l a) tickers []
  · intro t h
    simp [analyze_ticker, h]
  · intro t df h hd
    simp [analyze_ticker, h, hd]

/-- A fetcher for the witness scan: the ticker `"BAD"` fails to fetch,
`"EMP"` yields an empty series, every other ticker yields `sampleFrame`. -/
def witnessFetch : String → Nat → Option Frame := fun t _ =>
  if t = "BAD" then none
  else if t = "EMP" then some ⟨[], some [], none, none, none, none⟩
  else some sampleFrame

/-- Concrete instance of `C6_scan_loop`: among three tickers the failed
fetch and the empty series contribute nothing and the scan still collects
the matching ticker, in input order. -/
theorem C6_scan_loop_witness :
    run_scan witnessFetch ["AAA", "BAD", "EMP"] 2 3 1 =
      List.filterMap (fun t => analyze_ticker t (witnessFetch t (1 + 10)) 2 3 1)
        ["AAA", "BAD", "EMP"] ∧
    analyze_ticker "BAD" (witnessFetch "BAD" (1 + 10)) 2 3 1 = none ∧
    analyze_ticker "EMP" (witnessFetch "EMP" (1 + 10)) 2 3 1 = none :=
  ⟨(C6_scan_loop witnessFetch ["AAA", "BAD", "EMP"] 2 3 1).1,
   (C6_scan_loop witnessFetch ["AAA", "BAD", "EMP"] 2 3 1).2.1 "BAD" rfl,
   (C6_scan_loop witnessFetch ["AAA", "BAD", "EMP"] 2 3 1).2.2 "EMP"
     ⟨[], some [], none, none, none, none⟩ rfl rfl⟩

/-- Claim C9: the ticker universe is the deduplicated union of the two
source lists, deterministically sorted; when both sources are empty the
universe is empty and the scan halts before processing any ticker. -/
theorem C9_ticker_universe (sp nd : List String) :
    List.Sorted (· ≤ ·) (get_all_tickers sp nd) ∧
    (get_all_tickers sp nd).Nodup ∧
    (∀ t, t ∈ get_all_tickers sp nd ↔ t ∈ sp ∨ t ∈ nd) ∧
    get_all_tickers ([] : List String) [] = [] ∧
    (∀ (fetch : String → Nat → Option Frame) (sel : List String) (s l a : Nat),
      main_scan [] [] fetch sel s l a = none) := by
  refine ⟨?_, ?_, ?_, by simp [get_all_tickers], ?_⟩
  · exact List.sorted_mergeSort' ((sp ++ nd).dedup)
  · exact (List.mergeSort_perm _ _).nodup_iff.mpr (List.nodup_dedup _)
  · intro t
    rw [get_all_tickers, (List.mergeSort_perm _ _).mem_iff, List.mem_dedup, List.mem_append]
  · intro fetch sel s l a
    simp [main_scan, get_all_tickers]

/-! Helper lemmas about the rolling-window columns -/

lemma rollingMean_getElem (w : Nat) (xs : List ℚ) (i : Nat) (h : i < xs.length) :
    (rollingMean w xs)[i]? =
      some (if w ≤ i + 1 then some ((windowSlice w i xs).sum / (w : ℚ)) else none) := by
  simp [rollingMean, List.getElem?_map, List.getElem?_range h]

lemma rollingMax_getElem (w : Nat) (xs : List ℚ) (i : Nat) (h : i < xs.length) :
    (rollingMax w xs)[i]? =
      some (if w ≤ i + 1 then listMax (windowSlice w i xs) else none) := by
  simp [rollingMax, List.getElem?_map, List.getElem?_range h]

lemma arocCol_getElem (w : Nat) (xs : List ℚ) (i : Nat) (h : i < xs.length) :
    (arocCol w xs)[i]? =
      some (match (if w ≤ i then xs[i - w]? else none), xs[i]? with
        | some p, some c => some ((c - p) / p * 100)
        | _, _ => none) := by
  simp [arocCol, List.getElem?_map, List.getElem?_range h]

lemma windowSlice_length (w i : Nat) (xs : List ℚ) (h1 : w ≤ i + 1) (h2 : i < xs.length) :
    (windowSlice w i xs).length = w := by
  simp only [windowSlice, List.length_drop, List.length_take]
  omega

lemma windowSlice_eq_map (w i : Nat) (xs : List ℚ) (h1 : w ≤ i + 1) (h2 : i < xs.length) :
    windowSlice w i xs = (List.range w).map (fun j => xs.getD (i + 1 - w + j) 0) := by
  apply List.ext_getElem
  · rw [windowSlice_length w i xs h1 h2]
    simp
  · intro n hn1 hn2
    rw [windowSlice_length w i xs h1 h2] at hn1
    have hb : i + 1 - w + n < xs.length := by omega
    rw [List.getElem_map, List.getElem_range]
    rw [List.getD_eq_getElem xs 0 hb]
    simp only [windowSlice]
    rw [List.getElem_drop, List.getElem_take]

lemma sum_Icc_map_range (f : ℕ → ℚ) (a w : ℕ) :
    ∑ j ∈ Finset.Icc a (a + w), f j = ((List.range (w + 1)).map (fun j => f (a + j))).sum := by
  induction w with
  | zero => simp [List.range_succ]
  | succ w ih =>
    rw [← add_assoc, Finset.sum_Icc_succ_top (by omega) f, ih, List.range_succ (w + 1)]
    simp [add_assoc]

lemma sum_Icc_getD (xs : List ℚ) (i w : Nat) (hw1 : 1 ≤ w) (hw2 : w ≤ i + 1) :
    ∑ j ∈ Finset.Icc (i + 1 - w) i, xs.getD j 0 =
      ((List.range w).map (fun j => xs.getD (i + 1 - w + j) 0)).sum := by
  obtain ⟨k, rfl⟩ : ∃ k, w = k + 1 := ⟨w - 1, by omega⟩
  have h1 : i + 1 - (k + 1) + k = i := by omega
  calc ∑ j ∈ Finset.Icc (i + 1 - (k + 1)) i, xs.getD j 0
      = ∑ j ∈ Finset.Icc (i + 1 - (k + 1)) (i + 1 - (k + 1) + k), xs.getD j 0 := by rw [h1]
    _ = ((List.range (k + 1)).map (fun j => xs.getD (i + 1 - (k + 1) + j) 0)).sum :=
        sum_Icc_map_range _ _ _

lemma rollingMean_spec (w : Nat) (xs : List ℚ) (hw : 1 ≤ w) :
    (∀ i, i < xs.length → w ≤ i + 1 →
      (rollingMean w xs)[i]? =
        some (some ((∑ j ∈ Finset.Icc (i + 1 - w) i, xs.getD j 0) / (w : ℚ)))) ∧
    (∀ i, i < xs.length → i + 1 < w → (rollingMean w xs)[i]? = some none) ∧
    (xs.length < w → ∀ i, i < xs.length → (rollingMean w xs)[i]? = some none) := by
  refine ⟨?_, ?_, ?_⟩
  · intro i hi hw2
    rw [rollingMean_getElem w xs i hi, if_pos hw2,
      sum_Icc_getD xs i w hw hw2, ← windowSlice_eq_map w i xs hw2 hi]
  · intro i hi hw2
    rw [rollingMean_getElem w xs i hi, if_neg (by omega)]
  · intro hlen i hi
    rw [rollingMean_getElem w xs i hi, if_neg (by omega)]

lemma listMax_spec (xs : List ℚ) (h : xs ≠ []) :
    ∃ m, listMax xs = some m ∧ m ∈ xs ∧ ∀ y ∈ xs, y ≤ m := by
  induction xs with
  | nil => exact absurd rfl h
  | cons x xs ih =>
    cases hxs : xs with
    | nil =>
      subst hxs
      exact ⟨x, rfl, List.mem_singleton_self x, by simp⟩
    | cons y ys =>
      subst hxs
      obtain ⟨m, hm, hmem, hub⟩ := ih (by simp)
      refine ⟨max x m, ?_, ?_, ?_⟩
      · have hstep : listMax (x :: y :: ys) =
            match listMax (y :: ys) with
            | none => some x
            | some m => some (max x m) := rfl
        rw [hstep, hm]
      · rcases max_choice x m with hmx | hmx
        · rw [hmx]; exact List.mem_cons_self _ _
        · rw [hmx]; exact List.mem_cons_of_mem _ hmem
      · intro z hz
        rcases List.mem_cons.mp hz with rfl | hz
        · exact le_max_left _ _
        · exact le_trans (hub z hz) (le_max_right _ _)

/-! Claims about the indicator formulas -/

/-- Claim C3: the computed `sma_short` (and `sma_long`) column is the
trailing-window mean of Close — defined at 0-based index `i` exactly when
`i ≥ window - 1`, where it equals the arithmetic mean of Close over
indices `[i - window + 1, i]`; in particular it is undefined at every bar
of a series shorter than the window. -/
theorem C3_sma_trailing_mean (df : Frame) (closes : List ℚ) (s l a : Nat)
    (hc : df.close = some closes) (hs : 1 ≤ s) (hl : 1 ≤ l) :
    (calc_indicators df s l a).smaShort = some (rollingMean s closes) ∧
    (calc_indicators df s l a).smaLong = some (rollingMean l closes) ∧
    (∀ i, i < closes.length → s ≤ i + 1 →
      (rollingMean s closes)[i]? =
        some (some ((∑ j ∈ Finset.Icc (i + 1 - s) i, closes.getD j 0) / (s : ℚ)))) ∧
    (∀ i, i < closes.length → i + 1 < s → (rollingMean s closes)[i]? = some none) ∧
    (closes.length < s → ∀ i, i < closes.length → (rollingMean s closes)[i]? = some none) ∧
    (∀ i, i < closes.length → l ≤ i + 1 →
      (rollingMean l closes)[i]? =
        some (some ((∑ j ∈ Finset.Icc (i + 1 - l) i, closes.getD j 0) / (l : ℚ)))) ∧
    (∀ i, i < closes.length → i + 1 < l → (rollingMean l closes)[i]? = some none) ∧
    (closes.length < l → ∀ i, i < closes.length → (rollingMean l closes)[i]? = some none) := by
  obtain ⟨hs1, hs2, hs3⟩ := rollingMean_spec s closes hs
  obtain ⟨hl1, hl2, hl3⟩ := rollingMean_spec l closes hl
  exact ⟨by simp [calc_indicators, hc], by simp [calc_indicators, hc],
    hs1, hs2, hs3, hl1, hl2, hl3⟩

/-- Concrete instance of `C3_sma_trailing_mean` on the eight-bar sample:
window 2 at index 1 gives the mean `3/2`, and window 20 (longer than the
series) is undefined at index 0. -/
theorem C3_sma_trailing_mean_witness :
    (calc_indicators sampleFrame 2 20 1).smaShort =
      some (rollingMean 2 [1, 2, 3, 4, 5, 6, 7, 8]) ∧
    (rollingMean 2 [1, 2, 3, 4, 5, 6, 7, 8])[1]? = some (some (3 / 2)) ∧
    (rollingMean 20 [1, 2, 3, 4, 5, 6, 7, 8])[0]? = some none := by
  have h := C3_sma_trailing_mean sampleFrame [1, 2, 3, 4, 5, 6, 7, 8] 2 20 1 rfl
    (by norm_num) (by norm_num)
  refine ⟨h.1, ?_, h.2.2.2.2.2.2.2 (by norm_num) 0 (by norm_num)⟩
  rw [h.2.2.1 1 (by norm_num) (by norm_num)]
  norm_num [Finset.sum_Icc_succ_top, Finset.Icc_self, Finset.sum_singleton]

/-- Claim C4: the computed `aroc` column is undefined at index `i` when
`i < aroc_weeks * 5` and otherwise equals
`(close[i] - close[i - window]) / close[i - window] * 100` exactly
(rationals stand in for floats, so the tolerance is 0). -/
theorem C4_aroc_formula (df : Frame) (closes : List ℚ) (s l a : Nat)
    (hc : df.close = some closes) :
    (calc_indicators df s l a).aroc = some (arocCol (a * 5) closes) ∧
    (∀ i, i < closes.length → i < a * 5 → (arocCol (a * 5) closes)[i]? = some none) ∧
    (∀ i ci cp, a * 5 ≤ i → closes[i]? = some ci → closes[i - a * 5]? = some cp →
      (arocCol (a * 5) closes)[i]? = some (some ((ci - cp) / cp * 100))) := by
  refine ⟨by simp [calc_indicators, hc], ?_, ?_⟩
  · intro i hi hia
    rw [arocCol_getElem _ _ _ hi, if_neg (by omega)]
  · intro i ci cp hia h1 h2
    have hi : i < closes.length := (List.getElem?_eq_some_iff.mp h1).1
    rw [arocCol_getElem _ _ _ hi, if_pos hia, h1, h2]

/-- Concrete instance of `C4_aroc_formula` on the eight-bar sample with a
five-day window: undefined at index 2, and `(8 - 3) / 3 * 100` at the
last index. -/
theorem C4_aroc_formula_witness :
    sampleFrame.close = some [1, 2, 3, 4, 5, 6, 7, 8] ∧
    (arocCol (1 * 5) [1, 2, 3, 4, 5, 6, 7, 8])[2]? = some none ∧
    (arocCol (1 * 5) [1, 2, 3, 4, 5, 6, 7, 8])[7]? =
      some (some (((8 : ℚ) - 3) / 3 * 100)) :=
  ⟨rfl,
   (C4_aroc_formula sampleFrame [1, 2, 3, 4, 5, 6, 7, 8] 2 3 1 rfl).2.1 2
     (by norm_num) (by norm_num),
   (C4_aroc_formula sampleFrame [1, 2, 3, 4, 5, 6, 7, 8] 2 3 1 rfl).2.2 7 8 3
     (by norm_num) rfl rfl⟩

/-- Claim C5: the computed `rolling_high` column is undefined at index `i`
while fewer than `aroc_weeks * 5` bars exist (`i + 1 < window`) and
otherwise carries the maximum Close over the trailing window
`[i - window + 1, i]`: an upper bound on every Close in the window that is
itself attained in the window. -/
theorem C5_rolling_high (df : Frame) (closes : List ℚ) (s l a : Nat)
    (hc : df.close = some closes) (ha : 1 ≤ a) :
    (calc_indicators df s l a).rollingHigh = some (rollingMax (a * 5) closes) ∧
    (∀ i, i < closes.length → i + 1 < a * 5 →
      (rollingMax (a * 5) closes)[i]? = some none) ∧
    (∀ i, i < closes.length → a * 5 ≤ i + 1 →
      ∃ m, (rollingMax (a * 5) closes)[i]? = some (some m) ∧
        (∀ j, i + 1 - a * 5 ≤ j → j ≤ i → closes.getD j 0 ≤ m) ∧
        (∃ j, i + 1 - a * 5 ≤ j ∧ j ≤ i ∧ closes.getD j 0 = m)) := by
  refine ⟨by simp [calc_indicators, hc], ?_, ?_⟩
  · intro i hi hw
    rw [rollingMax_getElem _ _ _ hi, if_neg (by omega)]
  · intro i hi hw
    have hmap := windowSlice_eq_map (a * 5) i closes hw hi
    have hne : windowSlice (a * 5) i closes ≠ [] := by
      intro hnil
      have := windowSlice_length (a * 5) i closes hw hi
      rw [hnil] at this
      simp at this
      omega
    obtain ⟨m, hm, hmem, hub⟩ := listMax_spec _ hne
    refine ⟨m, ?_, ?_, ?_⟩
    · rw [rollingMax_getElem _ _ _ hi, if_pos hw, hm]
    · intro j hj1 hj2
      apply hub
      rw [hmap]
      apply List.mem_map.mpr
      refine ⟨j - (i + 1 - a * 5), List.mem_range.mpr (by omega), ?_⟩
      have harg : i + 1 - a * 5 + (j - (i + 1 - a * 5)) = j := by omega
      rw [harg]
    · rw [hmap] at hmem
      obtain ⟨j0, hj0, hj0e⟩ := List.mem_map.mp hmem
      have hj0r := List.mem_range.mp hj0
      exact ⟨i + 1 - a * 5 + j0, by omega, by omega, hj0e⟩

/-- Concrete instance of `C5_rolling_high` on the eight-bar sample with a
five-day window: the derived column is the rolling maximum, and it is
undefined at index 2. -/
theorem C5_rolling_high_witness :
    (calc_indicators sampleFrame 2 3 1).rollingHigh =
      some (rollingMax (1 * 5) [1, 2, 3, 4, 5, 6, 7, 8]) ∧
    (rollingMax (1 * 5) [1, 2, 3, 4, 5, 6, 7, 8])[2]? = some none :=
  ⟨(C5_rolling_high sampleFrame [1, 2, 3, 4, 5, 6, 7, 8] 2 3 1 rfl (le_refl 1)).1,
   (C5_rolling_high sampleFrame [1, 2, 3, 4, 5, 6, 7, 8] 2 3 1 rfl (le_refl 1)).2.1 2
     (by norm_num) (by norm_num)⟩

end Scanner
